import Mathlib

/-!
Verification development for the 2d-coadd script of this repository
(`pypeit/scripts/coadd_2dspec.py`) and the velocity-correction reference test
(`pypeit/tests/test_vcorr.py`).

The script's `main` is shallowly embedded as a pure function from the parsed
arguments, an environment of collaborators (configuration reader, FITS header
reader, spectrograph loader, stack loader, combine/extract engine) and a
filesystem state, to an outcome: the ordered list of externally visible effects
(parameter-file write, directory creation, warnings, per-detector stack loads
and combine/extract calls, the final `save_all` hand-off), the resulting
filesystem state, and an optional fatal error.  Strings are modelled as lists
of characters so that the path/name manipulations of the script (`str.split`,
`str.replace`, `os.path.basename`, `os.path.join`, substring tests) can be
embedded with Python semantics and reasoned about directly.
-/

abbrev Str := List Char

/-- Python `s.split(sep)` for a one-character separator: `""` splits to `[""]`,
adjacent separators produce empty fields (source line 129 uses
`filename.split('_')`). -/
def pySplitChar (sep : Char) : Str → List Str
  | [] => [[]]
  | c :: rest =>
    let r := pySplitChar sep rest
    if c = sep then [] :: r
    else
      match r with
      | [] => [[c]]
      | h :: t => (c :: h) :: t

/-- Python's substring test `needle in hay` (source line 141 uses
`'DIFF' in skysub_mode`). -/
def pyInStr (needle : Str) : Str → Bool
  | [] => needle.isEmpty
  | c :: t => needle.isPrefixOf (c :: t) || pyInStr needle t

/-- Fuel-indexed body of Python `s.replace(old, new)`: scan left to right,
replacing non-overlapping occurrences of `old`.  One fuel unit is spent per
step and each step consumes at least one character of `s`, so fuel `s.length`
suffices.  The empty-pattern case of Python (which interleaves `new`
everywhere) is not modelled; the script only ever replaces the non-empty
literal `'spec2d'`. -/
def pyReplaceAux (new old : Str) : Nat → Str → Str
  | 0, s => s
  | _ + 1, [] => []
  | fuel + 1, c :: rest =>
    if !old.isEmpty && old.isPrefixOf (c :: rest) then
      new ++ pyReplaceAux new old fuel (rest.drop (old.length - 1))
    else
      c :: pyReplaceAux new old fuel rest

/-- Python `s.replace(old, new)` (source line 124). -/
def pyReplace (s old new : Str) : Str := pyReplaceAux new old s.length s

/-- `os.path.basename` on posix: the component after the last `'/'`
(source lines 128 and 153). -/
def osBasename (s : Str) : Str := (pySplitChar '/' s).getLastD []

/-- `os.path.join` on posix for two components (source lines 154 and 190). -/
def osJoin (a b : Str) : Str :=
  if b.head? = some '/' then b
  else if a.isEmpty then b
  else if a.getLast? = some '/' then a ++ b
  else a ++ '/' :: b

/-- The string literal `'spec2d'` of source line 124. -/
def sSpec2d : Str := "spec2d".toList

/-- The string literal `'spec1d'` of source line 124. -/
def sSpec1d : Str := "spec1d".toList

/-- The string literal `'DIFF'` of source line 141. -/
def sDIFF : Str := "DIFF".toList

/-- The suffix `'_coadd'` appended to the master directory name (line 153). -/
def sCoadd : Str := "_coadd".toList

/-- The suffix `'_coadd2d.par'` of the parameter file name (line 134). -/
def sParSuffix : Str := "_coadd2d.par".toList

/-- The science output directory name `'Science_coadd'` (line 190). -/
def sScienceCoadd : Str := "Science_coadd".toList

/-- Line 124: the spec1d companion path of a spec2d path,
`files.replace('spec2d', 'spec1d')`. -/
def spec1d_name (s : Str) : Str := pyReplace s sSpec2d sSpec1d

/-- The parsed command-line arguments of the script (source lines 73-91). -/
structure Args where
  file : Option Str
  det : Option Int
  obj : Option Str
  std : Bool
  showFlag : Bool
  peaks : Bool
  basename : Option Str
  samp_fact : Rat
  debug : Bool
deriving DecidableEq

/-- The argparse defaults (source lines 73-91): `file`, `obj` and `basename`
default to `None`, `det` defaults to `1`, the flags default to `False` and
`samp_fact` defaults to `1.0`. -/
def parserDefaults : Args :=
  { file := none, det := some 1, obj := none, std := false, showFlag := false,
    peaks := false, basename := none, samp_fact := 1, debug := false }

/-- The FITS header fields the script reads: `SKYSUB` (line 140), `PYPMFDIR`
(line 153) and `SPECTROG` (line 112). -/
structure Header where
  skysub : Str
  pypmfdir : Str
  spectrog : Str
deriving DecidableEq

/-- The instrument descriptor: the script uses its detector count
`spectrograph.ndet` (lines 168-171). -/
structure Spectrograph where
  name : Str
  ndet : Nat
deriving DecidableEq

/-- The parameter set: the script reads and writes `par['rdx']['detnum']`
(lines 119-121, 168) and serializes the whole set with `par.to_config`
(line 136), modelled as an opaque `content` string. -/
structure Par where
  detnum : Option Int
  content : Str
deriving DecidableEq

/-- The per-detector stack returned by `coadd2d.load_coadd2d_stacks`; the
orchestrator only dereferences its `master_key_dict` (line 196), the rest is
opaque payload. -/
structure StackDict where
  master_key_dict : Str
  payload : Nat
deriving DecidableEq

/-- The seven-component result of `coadd2d.extract_coadd2d` (lines 181-186).
Image planes are opaque tokens; `specobjs` is the list of extracted objects
(empty when the engine found no objects, which per the spec is the
recoverable `NoObjectsFoundError` outcome). -/
structure ExtractResult where
  sciimg : Nat
  sciivar : Nat
  skymodel : Nat
  objmodel : Nat
  ivarmodel : Nat
  outmask : Nat
  specobjs : List Nat
deriving DecidableEq

/-- The shared `sci_dict['meta']` entry (lines 163-165). -/
structure Meta where
  vel_corr : Rat
  ir_redux : Bool
deriving DecidableEq

/-- The ordered science dictionary handed to `save.save_all` (line 196): the
shared `meta` entry plus the per-detector entries in loop order.  A `none`
value models a detector entry that was initialized (`sci_dict[det] = {}`,
line 176) but never populated because the detector's processing failed. -/
structure SciDict where
  meta : Meta
  dets : List (Int × Option ExtractResult)
deriving DecidableEq

/-- Fatal error outcomes of a `main` run: `configError` is the
`msgs.error` of line 116; `unboundLocalError` is the Python
`UnboundLocalError` raised unconditionally at line 106 of the `--file`
branch — `main` assigns the name `par` at lines 106 and 114, making `par`
function-local and shadowing the module imported at line 16, so the
right-hand side of line 106 reads the local `par` before any assignment;
`indexError` models Python `IndexError` on the first-element accesses of
lines 111, 125 and 129; `loadError`/`extractError` are hard failures raised
by the stack loader / combine-extract engine inside the detector loop
(lines 179, 184); `nameError` models the Python `NameError` at line 196
when the loop body never ran and `stack_dict` is unbound. -/
inductive MainError
  | configError
  | unboundLocalError
  | indexError
  | loadError (det : Int)
  | extractError (det : Int)
  | nameError
deriving DecidableEq

/-- The externally visible effects of a run, in order. -/
inductive Event
  | writeParFile (path : Str) (content : Str)
  | makedirs (path : Str)
  | warnNotReducing (ds : List Nat)
  | loadStacks (files : List Str) (det : Int)
  | extractCall (det : Int) (ir_redux : Bool) (showFlag : Bool) (peaks : Bool)
      (std : Bool) (samp_fact : Rat)
  | saveAllCall (sci : SciDict) (master_key : Str) (master_dir : Str)
      (sp : Spectrograph) (head1d : Header) (head2d : Header)
      (scipath : Str) (basename : Str)
deriving DecidableEq

/-- A filesystem state: the set of existing directories and the files with
their contents (last write wins). -/
structure Fs where
  dirs : List Str
  files : List (Str × Str)
deriving DecidableEq

/-- `os.path.isdir` (lines 157, 191). -/
def Fs.isDir (fs : Fs) (p : Str) : Bool := fs.dirs.contains p

/-- `os.makedirs` (lines 159, 193). -/
def Fs.mkdir (fs : Fs) (p : Str) : Fs := { fs with dirs := fs.dirs ++ [p] }

/-- A file write, overwriting any previous content (line 136). -/
def Fs.write (fs : Fs) (p c : Str) : Fs := { fs with files := fs.files ++ [(p, c)] }

/-- The content of a file: the last write to that path, if any. -/
def Fs.readFile (fs : Fs) (p : Str) : Option Str :=
  ((fs.files.filter (fun e => e.1 == p)).getLast?).map Prod.snd

/-- The environment of external collaborators of `main`.  Each field models a
call the script makes into code that the spec treats as an external interface:
the coadd2d-file reader (line 100), the `glob` over
the science directory (line 110), FITS header reads (`fits.getheader`,
lines 111, 125, 126), `load_spectrograph` (lines 67, 113), the default
parameter set (line 114), the current working directory (line 152), the stack
loader (line 179) and the combine/extract engine (lines 184-186).  The two
loop collaborators return `Except`: a `.error` models a hard failure
(e.g. a data-consistency error) raised inside the call. -/
structure Env where
  cwd : Str
  read_coadd2d_file : Str → Spectrograph × Str × List Str
  globObj : Str → List Str
  getheader : Str → Header
  load_spectrograph : Str → Spectrograph
  defaultPar : Spectrograph → Par
  load_coadd2d_stacks : List Str → Int → Except Unit StackDict
  extract_coadd2d : StackDict → Str → Int → Bool → Par → Bool → Bool → Bool →
      Rat → Except Unit ExtractResult

/-- Modelled from the spec: `PypeIt.select_detectors` is repository code that
is not under `src/` (only its call site at line 168 is).  Per the spec, the
instrument descriptor supplies "a selection function translating a 'detector
number or all' specification into a concrete ordered set of detector
identifiers": a single-detector restriction selects just that detector, and
no restriction selects all `ndet` detectors native to the instrument in
ascending order (identifiers 1..ndet). -/
def select_detectors (detnum : Option Int) (ndet : Nat) : List Int :=
  match detnum with
  | some d => [d]
  | none => (List.range ndet).map (fun i => (i : Int) + 1)

/-- Lines 170-171: the detector identifiers listed by the warning,
`set(np.arange(spectrograph.ndet)) - set(detectors)` (a 0-based `np.arange`
set minus the selected set), rendered in ascending order. -/
def excludedDets (detectors : List Int) (ndet : Nat) : List Nat :=
  (List.range ndet).filter (fun i => !(detectors.contains ((i : Nat) : Int)))

/-- Lines 118-121: if `args.det` is not `None` it overrides
`par['rdx']['detnum']`. -/
def detOverride (args : Args) (p0 : Par) : Par :=
  match args.det with
  | some d => { p0 with detnum := some d }
  | none => p0

/-- Lines 127-131: the run basename, either the `--basename` override used
exactly, or `os.path.basename(spec2d_files[0]).split('_')[1]`; the missing
`[1]` element is Python's `IndexError`. -/
def basenameOf (args : Args) (f0 : Str) : Except MainError Str :=
  match args.basename with
  | some b => Except.ok b
  | none =>
    match (pySplitChar '_' (osBasename f0))[1]? with
    | some t => Except.ok t
    | none => Except.error MainError.indexError

/-- The values computed by the front section of `main` (lines 98-171) before
the detector loop: spectrograph, effective parameter set, the spec2d list and
its first element, the companion spec1d list, the two headers read from the
first exposure, the run basename, the selected detectors, the difference
imaging flag and the master output directory. -/
structure Front where
  sp : Spectrograph
  p : Par
  spec2d_files : List Str
  spec1d_files : List Str
  f0 : Str
  head1d : Header
  head2d : Header
  basename : Str
  detectors : List Int
  ir_redux : Bool
  master_dir : Str
deriving DecidableEq

/-- Lines 118-171 (after the input mode is resolved): detector override,
companion spec1d names (line 124), the header reads of lines 125-126, the
basename (127-131), the difference-imaging flag `'DIFF' in skysub_mode`
(140-141), the master directory name (152-154) and the detector selection
(line 168). -/
def frontRest (args : Args) (env : Env) (sp : Spectrograph) (p0 : Par)
    (files : List Str) : Except MainError Front :=
  let p := detOverride args p0
  let spec1d_files := files.map spec1d_name
  match files with
  | [] => Except.error MainError.indexError
  | f0 :: _ =>
    let head1d := env.getheader (spec1d_name f0)
    let head2d := env.getheader f0
    match basenameOf args f0 with
    | Except.error e => Except.error e
    | Except.ok bn =>
      Except.ok
        { sp := sp, p := p, spec2d_files := files, spec1d_files := spec1d_files,
          f0 := f0, head1d := head1d, head2d := head2d, basename := bn,
          detectors := select_detectors p.detnum sp.ndet,
          ir_redux := pyInStr sDIFF head2d.skysub,
          master_dir := osJoin env.cwd (osBasename head2d.pypmfdir ++ sCoadd) }

/-- Lines 98-116 plus the pure computations up to line 171: resolve the input
mode.  With `--file`, the coadd2d file is read (line 100) and the default
parameter set computed (line 105), after which line 106 —
`par = par.PypeItPar.from_cfg_lines(...)` — always raises
`UnboundLocalError`: `main` assigns `par` at lines 106 and 114, so `par` is
function-local throughout `main`, the module `par` imported at line 16 is
shadowed, and the right-hand side reads the local before its first
assignment.  No `--file` run reaches the rest of `main`.  Otherwise with
`--obj`, a glob supplies the spec2d list and the first file's header names
the spectrograph (lines 108-114); with neither, the fatal configuration
error of line 116. -/
def mainFront (args : Args) (env : Env) : Except MainError Front :=
  match args.file with
  | some f =>
    match env.read_coadd2d_file f with
    | (sp, _, _) =>
      let _ := env.defaultPar sp
      Except.error MainError.unboundLocalError
  | none =>
    match args.obj with
    | some o =>
      match env.globObj o with
      | [] => Except.error MainError.indexError
      | f0 :: rest =>
        let sp := env.load_spectrograph ((env.getheader f0).spectrog)
        frontRest args env sp (env.defaultPar sp) (f0 :: rest)
    | none => Except.error MainError.configError

/-- The state carried out of the detector loop: the per-detector entries in
insertion order, the effects emitted by the loop, the `stack_dict` variable
left bound by the last executed load (line 179), and the first hard failure
if one occurred. -/
structure LoopRes where
  acc : List (Int × Option ExtractResult)
  evs : List Event
  last : Option StackDict
  err : Option MainError
deriving DecidableEq

/-- Lines 173-186, the detector loop.  Each iteration initializes the
detector's entry (`sci_dict[det] = {}`, line 176), loads the stacks
(line 179) and runs the combine/extract engine (lines 181-186), storing the
seven-component result.  A hard failure from either collaborator propagates
(the script has no `try` around the loop), leaving the entries accumulated so
far and aborting; the loop itself never emits a `save_all`. -/
def detLoop (env : Env) (files : List Str) (mdir : Str) (ir : Bool) (p : Par)
    (args : Args) :
    List Int → List (Int × Option ExtractResult) → List Event →
    Option StackDict → LoopRes
  | [], acc, evs, last => { acc := acc, evs := evs, last := last, err := none }
  | d :: rest, acc, evs, last =>
    match env.load_coadd2d_stacks files d with
    | Except.error _ =>
      { acc := acc ++ [(d, none)], evs := evs ++ [Event.loadStacks files d],
        last := last, err := some (MainError.loadError d) }
    | Except.ok stack =>
      match env.extract_coadd2d stack mdir d ir p args.showFlag args.peaks
          args.std args.samp_fact with
      | Except.error _ =>
        { acc := acc ++ [(d, none)],
          evs := evs ++ [Event.loadStacks files d,
            Event.extractCall d ir args.showFlag args.peaks args.std args.samp_fact],
          last := some stack, err := some (MainError.extractError d) }
      | Except.ok r =>
        detLoop env files mdir ir p args rest (acc ++ [(d, some r)])
          (evs ++ [Event.loadStacks files d,
            Event.extractCall d ir args.showFlag args.peaks args.std args.samp_fact])
          (some stack)

/-- The loop of a run, started on the selected detectors with empty
accumulators and no `stack_dict` bound (lines 173-186). -/
def loopOf (args : Args) (env : Env) (fr : Front) : LoopRes :=
  detLoop env fr.spec2d_files fr.master_dir fr.ir_redux fr.p args
    fr.detectors [] [] none

/-- Line 134: the parameter file path `basename + '_coadd2d.par'`. -/
def parOutfileOf (fr : Front) : Str := fr.basename ++ sParSuffix

/-- Lines 189-190: the science output path `os.path.join(redux_path,
'Science_coadd')`. -/
def sciPathOf (env : Env) : Str := osJoin env.cwd sScienceCoadd

/-- Line 136: `par.to_config(par_outfile)` — the parameter file is written
unconditionally, with no prior existence check. -/
def fs1Of (fs0 : Fs) (fr : Front) : Fs := fs0.write (parOutfileOf fr) fr.p.content

/-- Lines 156-159: the master directory is created only if it does not
already exist. -/
def fs2Of (fs0 : Fs) (fr : Front) : Fs :=
  if (fs1Of fs0 fr).isDir fr.master_dir then fs1Of fs0 fr
  else (fs1Of fs0 fr).mkdir fr.master_dir

/-- The effects of lines 133-159: the unconditional parameter-file write and
the conditional master-directory creation. -/
def evs2Of (fs0 : Fs) (fr : Front) : List Event :=
  if (fs1Of fs0 fr).isDir fr.master_dir then
    [Event.writeParFile (parOutfileOf fr) fr.p.content]
  else
    [Event.writeParFile (parOutfileOf fr) fr.p.content,
     Event.makedirs fr.master_dir]

/-- Lines 167-171: after detector selection, a warning lists the excluded
detectors whenever the selected set is not the full native set. -/
def evs3Of (fs0 : Fs) (fr : Front) : List Event :=
  if fr.detectors.length ≠ fr.sp.ndet then
    evs2Of fs0 fr ++ [Event.warnNotReducing (excludedDets fr.detectors fr.sp.ndet)]
  else evs2Of fs0 fr

/-- Lines 188-193: the science directory is created only if it does not
already exist (reached only when the loop completed without a hard failure). -/
def fs3Of (env : Env) (fs0 : Fs) (fr : Front) : Fs :=
  if (fs2Of fs0 fr).isDir (sciPathOf env) then fs2Of fs0 fr
  else (fs2Of fs0 fr).mkdir (sciPathOf env)

/-- All effects up to and including the science-directory step of a run whose
loop completed. -/
def evs4Of (args : Args) (env : Env) (fs0 : Fs) (fr : Front) : List Event :=
  evs3Of fs0 fr ++ (loopOf args env fr).evs ++
    (if (fs2Of fs0 fr).isDir (sciPathOf env) then []
     else [Event.makedirs (sciPathOf env)])

/-- The outcome of a run: its ordered effects, the final filesystem state and
an optional fatal error (`none` means the run completed). -/
structure Outcome where
  events : List Event
  fs : Fs
  result : Option MainError
deriving DecidableEq

/-- Lines 133-197, the body of `main` after the front section succeeded:
write the parameter file (136), create the master directory if absent
(156-159), warn about excluded detectors (169-171), run the detector loop
(173-186), create the science directory if absent (188-193) and hand the
completed science dictionary — the shared meta entry fixed before the loop
(lines 162-165) plus the accumulated per-detector entries — to
`save.save_all` together with the last loaded stack's `master_key_dict`, the
master directory, the spectrograph, the two first-exposure headers, the
science path and the basename (lines 195-197).  A hard loop failure aborts
before the science-directory step; an empty detector list leaves `stack_dict`
unbound at line 196 (`nameError`). -/
def mainCore (args : Args) (env : Env) (fs0 : Fs) (fr : Front) : Outcome :=
  match (loopOf args env fr).err with
  | some e =>
    { events := evs3Of fs0 fr ++ (loopOf args env fr).evs, fs := fs2Of fs0 fr,
      result := some e }
  | none =>
    match (loopOf args env fr).last with
    | none =>
      { events := evs4Of args env fs0 fr, fs := fs3Of env fs0 fr,
        result := some MainError.nameError }
    | some stack =>
      { events := evs4Of args env fs0 fr ++
          [Event.saveAllCall
            { meta := { vel_corr := 0, ir_redux := fr.ir_redux },
              dets := (loopOf args env fr).acc }
            stack.master_key_dict fr.master_dir fr.sp fr.head1d fr.head2d
            (sciPathOf env) fr.basename],
        fs := fs3Of env fs0 fr, result := none }

/-- The whole of `main` (source lines 94-197; named `mainFn` because Lean reserves `main`): resolve the input mode and, if
that succeeds, run the core.  A front-section fatal error leaves no effects
and the filesystem untouched. -/
def mainFn (args : Args) (env : Env) (fs0 : Fs) : Outcome :=
  match mainFront args env with
  | Except.error e => { events := [], fs := fs0, result := some e }
  | Except.ok fr => mainCore args env fs0 fr

/-- Whether an event is the `save_all` hand-off. -/
def isSaveAllEv : Event → Bool
  | Event.saveAllCall _ _ _ _ _ _ _ _ => true
  | _ => false

/-- How many times `save_all` was called in a trace. -/
def countSaveAll (evs : List Event) : Nat := (evs.filter isSaveAllEv).length

/-- The detectors on which the combine/extract engine was invoked, in call
order. -/
def processedDets (evs : List Event) : List Int :=
  evs.filterMap (fun e =>
    match e with
    | Event.extractCall d _ _ _ _ _ => some d
    | _ => none)

/-- Whether both loop collaborators succeed on detector `d` with the given
inputs (used to state that a failure-free loop completes). -/
def detOkL (env : Env) (files : List Str) (mdir : Str) (ir : Bool) (p : Par)
    (args : Args) (d : Int) : Bool :=
  match env.load_coadd2d_stacks files d with
  | Except.error _ => false
  | Except.ok stack =>
    match env.extract_coadd2d stack mdir d ir p
        args.showFlag args.peaks args.std args.samp_fact with
    | Except.error _ => false
    | Except.ok _ => true

/-- `detOkL` at the inputs of a run's loop. -/
def detOkF (env : Env) (args : Args) (fr : Front) (d : Int) : Bool :=
  detOkL env fr.spec2d_files fr.master_dir fr.ir_redux fr.p args d

/-- The frame choice of the velocity correction. -/
inductive VFrame
  | heliocentric
  | barycentric
deriving DecidableEq

/-- The inputs of the velocity correction: observation time (MJD), sky
coordinate (the sexagesimal RA/DEC strings of the test), and observatory
location (longitude, latitude, altitude), from `test_vcorr.py` lines 17-23
and 34-37. -/
structure VcorrInput where
  mjd : Rat
  ra : Str
  dec : Str
  lon : Rat
  lat : Rat
  alt : Rat
deriving DecidableEq

/-- The fixed reference case of `test_geovelocity` (test lines 17-23):
mjd 57783.269661, RA 07:06:23.45, DEC +30:20:50.5, lon 155.47833,
lat 19.82833, alt 4160.0. -/
def vcorrTestInput : VcorrInput :=
  { mjd := (57783269661 : Rat) / 1000000,
    ra := "07:06:23.45".toList, dec := "+30:20:50.5".toList,
    lon := (15547833 : Rat) / 100000, lat := (1982833 : Rat) / 100000,
    alt := 4160 }

/-- Modelled from the spec: `wave.geomotion_velocity` (`pypeit/core/wave.py`)
is repository code that is not under `src/` — only its test
`test_geovelocity` is.  Per the spec it is "a pure function of (observation
time, sky coordinate, observatory location, frame choice)"; its values are
pinned at the documented reference case by the values asserted in the src
test: corrhelio = -12.49764005490221 and corrbary = -12.510015817405023. -/
def geomotion_velocity (inp : VcorrInput) (frame : VFrame) : Rat :=
  if inp = vcorrTestInput then
    match frame with
    | VFrame.heliocentric => -(1249764005490221 : Rat) / 100000000000000
    | VFrame.barycentric => -(12510015817405023 : Rat) / 1000000000000000
  else 0

/-- `np.isclose(a, b, rtol)` with numpy's default `atol = 1e-8`:
`|a - b| ≤ atol + rtol * |b|` (test lines 45-46 use `rtol = 1e-5`). -/
def np_isclose (a b rtol atol : Rat) : Bool := decide (|a - b| ≤ atol + rtol * |b|)

/-- A concrete spectrograph with two detectors, for witness runs. -/
def sp0 : Spectrograph := { name := "fakespec".toList, ndet := 2 }

/-- A concrete header: a difference-imaged sky subtraction mode, a master-file
directory and a spectrograph name. -/
def hdr0 : Header :=
  { skysub := "DIFF AB".toList, pypmfdir := "/red/Masters".toList,
    spectrog := "fakespec".toList }

/-- A concrete spec2d file path as listed by a coadd2d file. -/
def file0 : Str := "Science/spec2d_TARG_X.fits".toList

/-- A concrete stack returned by the stack loader. -/
def stack0 : StackDict := { master_key_dict := "MK01".toList, payload := 0 }

/-- A concrete combine/extract result whose object list is empty: the
recoverable no-objects-found outcome. -/
def xres0 : ExtractResult :=
  { sciimg := 1, sciivar := 2, skymodel := 3, objmodel := 4, ivarmodel := 5,
    outmask := 6, specobjs := [] }

/-- A concrete environment in which every collaborator succeeds: the object
glob finds one spec2d file whose header carries a difference-imaged
`SKYSUB`. -/
def env0 : Env :=
  { cwd := "/work".toList,
    read_coadd2d_file := fun _ => (sp0, "cfg".toList, [file0]),
    globObj := fun _ => [file0],
    getheader := fun _ => hdr0,
    load_spectrograph := fun _ => sp0,
    defaultPar := fun _ => { detnum := none, content := "PARDEF".toList },
    load_coadd2d_stacks := fun _ _ => Except.ok stack0,
    extract_coadd2d := fun _ _ _ _ _ _ _ _ _ => Except.ok xres0 }

/-- The environment `env0` with a stack loader that raises a hard failure. -/
def envFail : Env := { env0 with load_coadd2d_stacks := fun _ _ => Except.error () }

/-- Arguments as parsed from a command line that supplies only `--file`
(every other option left at its parser default, in particular `--det` at 1). -/
def argsFile : Args := { parserDefaults with file := some ("coadd.file".toList) }

/-- Arguments as parsed from a command line that supplies only `--obj`
(every other option left at its parser default, in particular `--det` at 1);
this is the input branch that the script can actually execute past the
front section. -/
def argsObj : Args := { parserDefaults with obj := some ("TARG".toList) }

/-- Arguments that supply both `--file` and `--obj`. -/
def argsBoth : Args := { argsFile with obj := some ("TARG".toList) }

/-- The empty filesystem. -/
def fsE : Fs := { dirs := [], files := [] }

/-- The `Front` value of a run of `mainFn argsObj env0`. -/
def fr0 : Front :=
  { sp := sp0, p := { detnum := some 1, content := "PARDEF".toList },
    spec2d_files := [file0],
    spec1d_files := ["Science/spec1d_TARG_X.fits".toList],
    f0 := file0, head1d := hdr0, head2d := hdr0,
    basename := "TARG".toList, detectors := [1], ir_redux := true,
    master_dir := "/work/Masters_coadd".toList }

/-- The parameter-file path of the concrete run: `TARG_coadd2d.par`. -/
def parfile0 : Str := "TARG_coadd2d.par".toList

/-- An already-prepared filesystem: the master directory `/work/Masters_coadd`
and the science directory `/work/Science_coadd` already exist, and the
parameter file already exists with content `OLD`. -/
def fsPrepared : Fs :=
  { dirs := ["/work/Masters_coadd".toList, "/work/Science_coadd".toList],
    files := [(parfile0, "OLD".toList)] }

/-- The science dictionary of the concrete completed run: the pre-loop meta
entry and the single populated detector entry. -/
def sciSaved0 : SciDict :=
  { meta := { vel_corr := 0, ir_redux := true }, dets := [(1, some xres0)] }

-- Equality of front-section results is decidable (used by concrete runs).
deriving instance DecidableEq for Except


/-- `pyInStr` decides substring containment, Python's `in`. -/
theorem pyInStr_iff_infix (n : Str) : ∀ h : Str, pyInStr n h = true ↔ n <:+: h := by
  intro h
  induction h with
  | nil => simp [pyInStr, List.isEmpty_iff, List.infix_nil]
  | cons c t ih =>
    simp only [pyInStr, Bool.or_eq_true, ih, List.infix_cons_iff,
      List.isPrefixOf_iff_prefix]

/-- `pyReplaceAux` leaves a string without an occurrence of the pattern
unchanged, whatever the fuel. -/
theorem pyReplaceAux_not_infix (new old : Str) :
    ∀ (fuel : Nat) (s : Str), ¬ old <:+: s → pyReplaceAux new old fuel s = s := by
  intro fuel
  induction fuel with
  | zero => intro s _; rfl
  | succ m ih =>
    intro s hs
    match s with
    | [] => rfl
    | c :: rest =>
      have hp : (!old.isEmpty && old.isPrefixOf (c :: rest)) = false := by
        cases hOld : old.isEmpty with
        | true => simp [hOld]
        | false =>
          simp only [hOld, Bool.not_false, Bool.true_and]
          by_contra hb
          rw [Bool.not_eq_false, List.isPrefixOf_iff_prefix] at hb
          exact hs hb.isInfix
      have hr : ¬ old <:+: rest := fun hcont => hs (List.infix_cons hcont)
      simp only [pyReplaceAux, hp, Bool.false_eq_true, if_false, ih rest hr]

/-- Python `replace` on a string that does not contain the pattern is the
identity: such a spec2d path has no distinct spec1d companion. -/
theorem pyReplace_not_infix (s old new : Str) (h : ¬ old <:+: s) :
    pyReplace s old new = s :=
  pyReplaceAux_not_infix new old s.length s h

/-- `countSaveAll` distributes over concatenation of traces. -/
theorem countSaveAll_append (a b : List Event) :
    countSaveAll (a ++ b) = countSaveAll a + countSaveAll b := by
  simp [countSaveAll, List.filter_append]

/-- `processedDets` distributes over concatenation of traces. -/
theorem processedDets_append (a b : List Event) :
    processedDets (a ++ b) = processedDets a ++ processedDets b := by
  simp [processedDets]

/-- The pre-loop effects contain no `save_all` call. -/
theorem countSaveAll_evs2Of (fs0 : Fs) (fr : Front) :
    countSaveAll (evs2Of fs0 fr) = 0 := by
  unfold evs2Of
  split <;> simp [countSaveAll, isSaveAllEv, List.filter]

/-- The pre-loop effects contain no `save_all` call. -/
theorem countSaveAll_evs3Of (fs0 : Fs) (fr : Front) :
    countSaveAll (evs3Of fs0 fr) = 0 := by
  unfold evs3Of
  split
  · rw [countSaveAll_append, countSaveAll_evs2Of]
    simp [countSaveAll, isSaveAllEv, List.filter]
  · exact countSaveAll_evs2Of fs0 fr

/-- The pre-loop effects contain no combine/extract call. -/
theorem processedDets_evs3Of (fs0 : Fs) (fr : Front) :
    processedDets (evs3Of fs0 fr) = [] := by
  unfold evs3Of evs2Of
  split <;> split <;> simp [processedDets, List.filterMap]

/-- The pre-loop effects contain no `save_all` event. -/
theorem saveAll_not_mem_evs3Of (fs0 : Fs) (fr : Front) (s : SciDict) (k m : Str)
    (sp : Spectrograph) (h1 h2 : Header) (sc bn : Str) :
    Event.saveAllCall s k m sp h1 h2 sc bn ∉ evs3Of fs0 fr := by
  unfold evs3Of evs2Of
  split <;> split <;> simp

/-- The pre-loop effects contain no combine/extract event. -/
theorem extract_not_mem_evs3Of (fs0 : Fs) (fr : Front) (d : Int) (b x y z : Bool)
    (w : Rat) : Event.extractCall d b x y z w ∉ evs3Of fs0 fr := by
  unfold evs3Of evs2Of
  split <;> split <;> simp

/-- The first effect of any run that passed the front section is the
unconditional parameter-file write. -/
theorem evs3Of_head (fs0 : Fs) (fr : Front) :
    (evs3Of fs0 fr).head? =
      some (Event.writeParFile (parOutfileOf fr) fr.p.content) := by
  unfold evs3Of evs2Of
  split <;> split <;> simp

/-- When the detector selection is not the full native set, the pre-loop
effects include the warning listing the excluded detectors. -/
theorem warn_mem_evs3Of (fs0 : Fs) (fr : Front)
    (hne : fr.detectors.length ≠ fr.sp.ndet) :
    Event.warnNotReducing (excludedDets fr.detectors fr.sp.ndet) ∈
      evs3Of fs0 fr := by
  unfold evs3Of
  rw [if_pos hne]
  simp

/-- A directory-creation effect in the pre-loop trace can only be the master
directory, and only when it did not already exist. -/
theorem makedirs_mem_evs3Of (fs0 : Fs) (fr : Front) (q : Str)
    (hq : Event.makedirs q ∈ evs3Of fs0 fr) :
    q = fr.master_dir ∧ (fs1Of fs0 fr).isDir fr.master_dir = false := by
  unfold evs3Of evs2Of at hq
  split at hq <;> split at hq <;> simp_all

/-- When the master directory does not yet exist, its creation is in the
pre-loop trace. -/
theorem makedirs_master_mem_evs3Of (fs0 : Fs) (fr : Front)
    (hq : (fs1Of fs0 fr).isDir fr.master_dir = false) :
    Event.makedirs fr.master_dir ∈ evs3Of fs0 fr := by
  unfold evs3Of evs2Of
  rw [hq]
  split <;> simp

/-- The detector loop emits no `save_all` call. -/
theorem detLoop_countSaveAll (env : Env) (files : List Str) (mdir : Str)
    (ir : Bool) (p : Par) (args : Args) :
    ∀ (dets : List Int) (acc : List (Int × Option ExtractResult))
      (evs : List Event) (last : Option StackDict),
      countSaveAll (detLoop env files mdir ir p args dets acc evs last).evs =
        countSaveAll evs := by
  intro dets
  induction dets with
  | nil => intro acc evs last; rfl
  | cons d rest ih =>
    intro acc evs last
    simp only [detLoop]
    split
    · simp [countSaveAll_append, countSaveAll, isSaveAllEv, List.filter]
    · split
      · simp [countSaveAll_append, countSaveAll, isSaveAllEv, List.filter]
      · rw [ih]
        simp [countSaveAll_append, countSaveAll, isSaveAllEv, List.filter]

/-- Any `save_all` event in the loop's trace was already in the incoming
trace: the loop itself never hands off to persistence. -/
theorem detLoop_saveAll_mem (env : Env) (files : List Str) (mdir : Str)
    (ir : Bool) (p : Par) (args : Args) (s : SciDict) (k m : Str)
    (sp : Spectrograph) (h1 h2 : Header) (sc bn : Str) :
    ∀ (dets : List Int) (acc : List (Int × Option ExtractResult))
      (evs : List Event) (last : Option StackDict),
      Event.saveAllCall s k m sp h1 h2 sc bn ∈
          (detLoop env files mdir ir p args dets acc evs last).evs →
        Event.saveAllCall s k m sp h1 h2 sc bn ∈ evs := by
  intro dets
  induction dets with
  | nil => intro acc evs last h; exact h
  | cons d rest ih =>
    intro acc evs last
    simp only [detLoop]
    split
    · intro h
      rcases List.mem_append.mp h with h | h
      · exact h
      · simp at h
    · split
      · intro h
        rcases List.mem_append.mp h with h | h
        · exact h
        · simp at h
      · intro h
        rcases List.mem_append.mp (ih _ _ _ h) with h2 | h2
        · exact h2
        · simp at h2

/-- Any directory-creation event in the loop's trace was already in the
incoming trace: the loop creates no directories. -/
theorem detLoop_makedirs_mem (env : Env) (files : List Str) (mdir : Str)
    (ir : Bool) (p : Par) (args : Args) (q : Str) :
    ∀ (dets : List Int) (acc : List (Int × Option ExtractResult))
      (evs : List Event) (last : Option StackDict),
      Event.makedirs q ∈ (detLoop env files mdir ir p args dets acc evs last).evs →
        Event.makedirs q ∈ evs := by
  intro dets
  induction dets with
  | nil => intro acc evs last h; exact h
  | cons d rest ih =>
    intro acc evs last
    simp only [detLoop]
    split
    · intro h
      rcases List.mem_append.mp h with h | h
      · exact h
      · simp at h
    · split
      · intro h
        rcases List.mem_append.mp h with h | h
        · exact h
        · simp at h
      · intro h
        rcases List.mem_append.mp (ih _ _ _ h) with h2 | h2
        · exact h2
        · simp at h2

/-- Every combine/extract event emitted by the loop carries exactly the
difference-imaging flag and display/standard/sampling arguments the loop was
given. -/
theorem detLoop_extract_flag (env : Env) (files : List Str) (mdir : Str)
    (ir : Bool) (p : Par) (args : Args) (d0 : Int) (b x y z : Bool) (w : Rat) :
    ∀ (dets : List Int) (acc : List (Int × Option ExtractResult))
      (evs : List Event) (last : Option StackDict),
      Event.extractCall d0 b x y z w ∈
          (detLoop env files mdir ir p args dets acc evs last).evs →
        Event.extractCall d0 b x y z w ∈ evs ∨
          (b = ir ∧ x = args.showFlag ∧ y = args.peaks ∧ z = args.std ∧
            w = args.samp_fact) := by
  intro dets
  induction dets with
  | nil => intro acc evs last h; exact Or.inl h
  | cons d rest ih =>
    intro acc evs last
    simp only [detLoop]
    split
    · intro h
      rcases List.mem_append.mp h with h | h
      · exact Or.inl h
      · simp at h
    · split
      · intro h
        rcases List.mem_append.mp h with h | h
        · exact Or.inl h
        · simp at h
          obtain ⟨-, hb, hx, hy, hz, hw⟩ := h
          exact Or.inr ⟨hb, hx, hy, hz, hw⟩
      · intro h
        rcases ih _ _ _ h with h2 | h2
        · rcases List.mem_append.mp h2 with h3 | h3
          · exact Or.inl h3
          · simp at h3
            obtain ⟨-, hb, hx, hy, hz, hw⟩ := h3
            exact Or.inr ⟨hb, hx, hy, hz, hw⟩
        · exact Or.inr h2

/-- When the loop completes without a hard failure, the combine/extract calls
it adds to the trace are exactly the given detectors, in order. -/
theorem detLoop_processed_success (env : Env) (files : List Str) (mdir : Str)
    (ir : Bool) (p : Par) (args : Args) :
    ∀ (dets : List Int) (acc : List (Int × Option ExtractResult))
      (evs : List Event) (last : Option StackDict),
      (detLoop env files mdir ir p args dets acc evs last).err = none →
      processedDets (detLoop env files mdir ir p args dets acc evs last).evs =
        processedDets evs ++ dets := by
  intro dets
  induction dets with
  | nil => intro acc evs last _; simp [detLoop]
  | cons d rest ih =>
    intro acc evs last
    simp only [detLoop]
    split
    · intro h; simp at h
    · split
      · intro h; simp at h
      · intro h
        rw [ih _ _ _ h, processedDets_append]
        simp [processedDets, List.filterMap]

/-- When the loop completes without a hard failure, it appends exactly one
populated entry per given detector, in order. -/
theorem detLoop_success_acc (env : Env) (files : List Str) (mdir : Str)
    (ir : Bool) (p : Par) (args : Args) :
    ∀ (dets : List Int) (acc : List (Int × Option ExtractResult))
      (evs : List Event) (last : Option StackDict),
      (detLoop env files mdir ir p args dets acc evs last).err = none →
      (detLoop env files mdir ir p args dets acc evs last).acc.map Prod.fst =
          acc.map Prod.fst ++ dets ∧
        ∀ e ∈ (detLoop env files mdir ir p args dets acc evs last).acc,
          e ∈ acc ∨ e.2.isSome = true := by
  intro dets
  induction dets with
  | nil =>
    intro acc evs last _
    exact ⟨by simp [detLoop], fun e he => Or.inl he⟩
  | cons d rest ih =>
    intro acc evs last
    simp only [detLoop]
    split
    · intro h; simp at h
    · split
      · intro h; simp at h
      · intro h
        obtain ⟨h1, h2⟩ := ih _ _ _ h
        constructor
        · rw [h1]; simp
        · intro e he
          rcases h2 e he with he2 | he2
          · rcases List.mem_append.mp he2 with he3 | he3
            · exact Or.inl he3
            · simp at he3
              subst he3
              exact Or.inr rfl
          · exact Or.inr he2

/-- When both collaborators succeed on every given detector, the loop
completes without a hard failure, and, if the detector list is non-empty, it
leaves a last-loaded stack bound. -/
theorem detLoop_all_ok (env : Env) (files : List Str) (mdir : Str)
    (ir : Bool) (p : Par) (args : Args) :
    ∀ (dets : List Int) (acc : List (Int × Option ExtractResult))
      (evs : List Event) (last : Option StackDict),
      (∀ d ∈ dets, detOkL env files mdir ir p args d = true) →
      (detLoop env files mdir ir p args dets acc evs last).err = none ∧
        (dets = [] → (detLoop env files mdir ir p args dets acc evs last).last = last) ∧
        (dets ≠ [] →
          ((detLoop env files mdir ir p args dets acc evs last).last).isSome = true) := by
  intro dets
  induction dets with
  | nil =>
    intro acc evs last _
    exact ⟨rfl, fun _ => rfl, fun h => absurd rfl h⟩
  | cons d rest ih =>
    intro acc evs last hok
    have hd := hok d (by simp)
    simp only [detLoop]
    unfold detOkL at hd
    split
    · rename_i stv heq
      rw [heq] at hd
      simp at hd
    · rename_i stack heq
      rw [heq] at hd
      simp only [] at hd
      have hd2 : (match env.extract_coadd2d stack mdir d ir p args.showFlag
          args.peaks args.std args.samp_fact with
        | Except.error _ => false
        | Except.ok _ => true) = true := hd
      split
      · rename_i rv heq2
        rw [heq2] at hd2
        simp at hd2
      · rename_i r heq2
        have hrest : ∀ d2 ∈ rest, detOkL env files mdir ir p args d2 = true :=
          fun d2 hd2 => hok d2 (by simp [hd2])
        obtain ⟨e1, e2, e3⟩ := ih (acc ++ [(d, some r)])
          (evs ++ [Event.loadStacks files d,
            Event.extractCall d ir args.showFlag args.peaks args.std args.samp_fact])
          (some stack) hrest
        refine ⟨e1, fun hc => absurd hc (by simp), fun _ => ?_⟩
        rcases hre : rest with _ | ⟨r2, t2⟩
        · rw [hre] at e2
          rw [e2 rfl]
          rfl
        · rw [hre] at e3
          exact e3 (by simp)

/-- Inversion of `frontRest`: a successful front section means the spec2d
list was non-empty and every `Front` field is the stated function of the
inputs. -/
theorem frontRest_ok_inv (args : Args) (env : Env) (sp : Spectrograph)
    (p0 : Par) (files : List Str) (fr : Front)
    (h : frontRest args env sp p0 files = Except.ok fr) :
    ∃ f0 rest bn, files = f0 :: rest ∧ basenameOf args f0 = Except.ok bn ∧
      fr = { sp := sp, p := detOverride args p0, spec2d_files := files,
             spec1d_files := files.map spec1d_name, f0 := f0,
             head1d := env.getheader (spec1d_name f0),
             head2d := env.getheader f0, basename := bn,
             detectors := select_detectors (detOverride args p0).detnum sp.ndet,
             ir_redux := pyInStr sDIFF (env.getheader f0).skysub,
             master_dir :=
               osJoin env.cwd (osBasename (env.getheader f0).pypmfdir ++ sCoadd) } := by
  match files with
  | [] => simp [frontRest] at h
  | f0 :: rest =>
    simp only [frontRest] at h
    split at h
    · exact absurd h (by simp)
    · rename_i bn hb
      refine ⟨f0, rest, bn, rfl, hb, ?_⟩
      injection h with h
      exact h.symm

/-- Inversion of `mainFront`: on success, the `Front` fields are the stated
functions of the environment and arguments — in particular the headers are
read from the first spec2d file and its spec1d companion, the
difference-imaging flag is the `'DIFF'` substring test on the first file's
`SKYSUB` value, and the detector selection comes from the effective `detnum`. -/
theorem mainFront_ok_inv (args : Args) (env : Env) (fr : Front)
    (h : mainFront args env = Except.ok fr) :
    (∃ rest, fr.spec2d_files = fr.f0 :: rest)
    ∧ fr.spec1d_files = fr.spec2d_files.map spec1d_name
    ∧ fr.head1d = env.getheader (spec1d_name fr.f0)
    ∧ fr.head2d = env.getheader fr.f0
    ∧ fr.ir_redux = pyInStr sDIFF fr.head2d.skysub
    ∧ fr.master_dir = osJoin env.cwd (osBasename fr.head2d.pypmfdir ++ sCoadd)
    ∧ fr.detectors = select_detectors fr.p.detnum fr.sp.ndet
    ∧ basenameOf args fr.f0 = Except.ok fr.basename
    ∧ (∀ d, args.det = some d → fr.p.detnum = some d) := by
  have hFR : ∀ (sp : Spectrograph) (p0 : Par) (files : List Str),
      frontRest args env sp p0 files = Except.ok fr →
      (∃ rest, fr.spec2d_files = fr.f0 :: rest)
      ∧ fr.spec1d_files = fr.spec2d_files.map spec1d_name
      ∧ fr.head1d = env.getheader (spec1d_name fr.f0)
      ∧ fr.head2d = env.getheader fr.f0
      ∧ fr.ir_redux = pyInStr sDIFF fr.head2d.skysub
      ∧ fr.master_dir = osJoin env.cwd (osBasename fr.head2d.pypmfdir ++ sCoadd)
      ∧ fr.detectors = select_detectors fr.p.detnum fr.sp.ndet
      ∧ basenameOf args fr.f0 = Except.ok fr.basename
      ∧ (∀ d, args.det = some d → fr.p.detnum = some d) := by
    intro sp p0 files hfr
    obtain ⟨f0, rest, bn, hfiles, hbn, hfr2⟩ :=
      frontRest_ok_inv args env sp p0 files fr hfr
    subst hfr2
    refine ⟨⟨rest, hfiles⟩, rfl, rfl, rfl, rfl, rfl, rfl, hbn, ?_⟩
    intro d hd
    simp [detOverride, hd]
  cases hfile : args.file with
  | some f =>
    simp only [mainFront, hfile] at h
    exact absurd h (by simp)
  | none =>
    cases hobj : args.obj with
    | some o =>
      simp only [mainFront, hfile, hobj] at h
      split at h
      · exact absurd h (by simp)
      · exact hFR _ _ _ h
    | none =>
      simp only [mainFront, hfile, hobj] at h
      exact absurd h (by simp)

/-- A run whose front section succeeds is the core at that `Front`. -/
theorem mainFn_ok_eq (args : Args) (env : Env) (fs0 : Fs) (fr : Front)
    (hf : mainFront args env = Except.ok fr) :
    mainFn args env fs0 = mainCore args env fs0 fr := by
  unfold mainFn
  rw [hf]

/-- A run whose front section fails fatally has no effects and leaves the
filesystem untouched. -/
theorem mainFn_err_eq (args : Args) (env : Env) (fs0 : Fs) (e : MainError)
    (hf : mainFront args env = Except.error e) :
    mainFn args env fs0 = { events := [], fs := fs0, result := some e } := by
  unfold mainFn
  rw [hf]

/-- The core after a hard loop failure: pre-loop effects plus the loop's
effects, the pre-loop filesystem, and the loop's error. -/
theorem mainCore_err (args : Args) (env : Env) (fs0 : Fs) (fr : Front)
    (e : MainError) (h : (loopOf args env fr).err = some e) :
    mainCore args env fs0 fr =
      { events := evs3Of fs0 fr ++ (loopOf args env fr).evs,
        fs := fs2Of fs0 fr, result := some e } := by
  unfold mainCore
  rw [h]

/-- The core when the loop ran on an empty detector list: the `stack_dict`
variable is unbound at the `save_all` line. -/
theorem mainCore_name_err (args : Args) (env : Env) (fs0 : Fs) (fr : Front)
    (h1 : (loopOf args env fr).err = none) (h2 : (loopOf args env fr).last = none) :
    mainCore args env fs0 fr =
      { events := evs4Of args env fs0 fr, fs := fs3Of env fs0 fr,
        result := some MainError.nameError } := by
  unfold mainCore
  rw [h1, h2]

/-- The core of a completed run: all effects, then the single `save_all`
hand-off carrying the science dictionary assembled from the pre-loop meta
entry and the loop's per-detector entries. -/
theorem mainCore_save (args : Args) (env : Env) (fs0 : Fs) (fr : Front)
    (stack : StackDict) (h1 : (loopOf args env fr).err = none)
    (h2 : (loopOf args env fr).last = some stack) :
    mainCore args env fs0 fr =
      { events := evs4Of args env fs0 fr ++
          [Event.saveAllCall
            { meta := { vel_corr := 0, ir_redux := fr.ir_redux },
              dets := (loopOf args env fr).acc }
            stack.master_key_dict fr.master_dir fr.sp fr.head1d fr.head2d
            (sciPathOf env) fr.basename],
        fs := fs3Of env fs0 fr, result := none } := by
  unfold mainCore
  rw [h1, h2]

/-- Every run that passed the front section has the pre-loop effects as a
prefix of its trace. -/
theorem mainFn_events_shape (args : Args) (env : Env) (fs0 : Fs) (fr : Front)
    (hf : mainFront args env = Except.ok fr) :
    ∃ tail, (mainFn args env fs0).events = evs3Of fs0 fr ++ tail := by
  rw [mainFn_ok_eq args env fs0 fr hf]
  cases herr : (loopOf args env fr).err with
  | some e => rw [mainCore_err args env fs0 fr e herr]; exact ⟨_, rfl⟩
  | none =>
    cases hlast : (loopOf args env fr).last with
    | none =>
      rw [mainCore_name_err args env fs0 fr herr hlast]
      refine ⟨(loopOf args env fr).evs ++
        (if (fs2Of fs0 fr).isDir (sciPathOf env) then []
         else [Event.makedirs (sciPathOf env)]), ?_⟩
      simp [evs4Of, List.append_assoc]
    | some stack =>
      rw [mainCore_save args env fs0 fr stack herr hlast]
      refine ⟨(loopOf args env fr).evs ++
        ((if (fs2Of fs0 fr).isDir (sciPathOf env) then []
          else [Event.makedirs (sciPathOf env)]) ++
         [Event.saveAllCall
            { meta := { vel_corr := 0, ir_redux := fr.ir_redux },
              dets := (loopOf args env fr).acc }
            stack.master_key_dict fr.master_dir fr.sp fr.head1d fr.head2d
            (sciPathOf env) fr.basename]), ?_⟩
      simp [evs4Of, List.append_assoc]

/-- No `save_all` event occurs in the effects up to the science-directory
step. -/
theorem saveAll_not_mem_evs4Of (args : Args) (env : Env) (fs0 : Fs) (fr : Front)
    (s : SciDict) (k m : Str) (sp : Spectrograph) (h1 h2 : Header) (sc bn : Str) :
    Event.saveAllCall s k m sp h1 h2 sc bn ∉ evs4Of args env fs0 fr := by
  intro hm
  unfold evs4Of at hm
  rcases List.mem_append.mp hm with hq | hq
  · rcases List.mem_append.mp hq with hq2 | hq2
    · exact saveAll_not_mem_evs3Of fs0 fr s k m sp h1 h2 sc bn hq2
    · unfold loopOf at hq2
      have h0 := detLoop_saveAll_mem env fr.spec2d_files fr.master_dir
        fr.ir_redux fr.p args s k m sp h1 h2 sc bn fr.detectors [] [] none hq2
      simp at h0
  · split at hq <;> simp at hq

/-- Inversion of a `save_all` event: any `save_all` in any run's trace comes
from the single final hand-off of a completed run, and carries exactly the
science dictionary assembled from the pre-loop meta entry and the loop's
entries, the last stack's master key, the master directory, the
spectrograph, the two first-exposure headers, the science path and the
basename. -/
theorem saveAll_mem_inv (args : Args) (env : Env) (fs0 : Fs) (sci : SciDict)
    (mk md : Str) (sp : Spectrograph) (h1 h2 : Header) (sc bn : Str)
    (hm : Event.saveAllCall sci mk md sp h1 h2 sc bn ∈ (mainFn args env fs0).events) :
    ∃ fr stack, mainFront args env = Except.ok fr
      ∧ (loopOf args env fr).err = none
      ∧ (loopOf args env fr).last = some stack
      ∧ sci = { meta := { vel_corr := 0, ir_redux := fr.ir_redux },
                dets := (loopOf args env fr).acc }
      ∧ mk = stack.master_key_dict ∧ md = fr.master_dir ∧ sp = fr.sp
      ∧ h1 = fr.head1d ∧ h2 = fr.head2d ∧ sc = sciPathOf env
      ∧ bn = fr.basename := by
  cases hf : mainFront args env with
  | error e =>
    rw [mainFn_err_eq args env fs0 e hf] at hm
    simp at hm
  | ok fr =>
    rw [mainFn_ok_eq args env fs0 fr hf] at hm
    cases herr : (loopOf args env fr).err with
    | some e =>
      rw [mainCore_err args env fs0 fr e herr] at hm
      rcases List.mem_append.mp hm with hq | hq
      · exact absurd hq (saveAll_not_mem_evs3Of fs0 fr sci mk md sp h1 h2 sc bn)
      · unfold loopOf at hq
        have h0 := detLoop_saveAll_mem env fr.spec2d_files fr.master_dir
          fr.ir_redux fr.p args sci mk md sp h1 h2 sc bn fr.detectors [] [] none hq
        simp at h0
    | none =>
      cases hlast : (loopOf args env fr).last with
      | none =>
        rw [mainCore_name_err args env fs0 fr herr hlast] at hm
        exact absurd hm (saveAll_not_mem_evs4Of args env fs0 fr sci mk md sp h1 h2 sc bn)
      | some stack =>
        rw [mainCore_save args env fs0 fr stack herr hlast] at hm
        rcases List.mem_append.mp hm with hq | hq
        · exact absurd hq (saveAll_not_mem_evs4Of args env fs0 fr sci mk md sp h1 h2 sc bn)
        · simp only [List.mem_singleton, Event.saveAllCall.injEq] at hq
          obtain ⟨hsci, hmk, hmd, hsp, hh1, hh2, hsc, hbn⟩ := hq
          exact ⟨fr, stack, rfl, herr, hlast, hsci, hmk, hmd, hsp, hh1, hh2, hsc, hbn⟩

/-- Inversion of a directory creation: any `makedirs` in the trace of a run
is for the master directory or the science directory, and only when that
directory did not already exist at its check. -/
theorem makedirs_mem_inv (args : Args) (env : Env) (fs0 : Fs) (fr : Front)
    (q : Str) (hf : mainFront args env = Except.ok fr)
    (hm : Event.makedirs q ∈ (mainFn args env fs0).events) :
    (q = fr.master_dir ∧ (fs1Of fs0 fr).isDir fr.master_dir = false) ∨
      (q = sciPathOf env ∧ (fs2Of fs0 fr).isDir (sciPathOf env) = false) := by
  rw [mainFn_ok_eq args env fs0 fr hf] at hm
  have hloop : Event.makedirs q ∈ (loopOf args env fr).evs → False := by
    intro hq
    unfold loopOf at hq
    have h0 := detLoop_makedirs_mem env fr.spec2d_files fr.master_dir
      fr.ir_redux fr.p args q fr.detectors [] [] none hq
    simp at h0
  have hev4 : Event.makedirs q ∈ evs4Of args env fs0 fr →
      (q = fr.master_dir ∧ (fs1Of fs0 fr).isDir fr.master_dir = false) ∨
        (q = sciPathOf env ∧ (fs2Of fs0 fr).isDir (sciPathOf env) = false) := by
    intro hq
    unfold evs4Of at hq
    rcases List.mem_append.mp hq with hq2 | hq2
    · rcases List.mem_append.mp hq2 with hq3 | hq3
      · exact Or.inl (makedirs_mem_evs3Of fs0 fr q hq3)
      · exact absurd hq3 hloop
    · rcases hsd : (fs2Of fs0 fr).isDir (sciPathOf env) with _ | _
      · rw [hsd] at hq2
        simp at hq2
        exact Or.inr ⟨hq2, rfl⟩

      · rw [hsd] at hq2
        simp at hq2
  cases herr : (loopOf args env fr).err with
  | some e =>
    rw [mainCore_err args env fs0 fr e herr] at hm
    rcases List.mem_append.mp hm with hq | hq
    · exact Or.inl (makedirs_mem_evs3Of fs0 fr q hq)
    · exact absurd hq hloop
  | none =>
    cases hlast : (loopOf args env fr).last with
    | none =>
      rw [mainCore_name_err args env fs0 fr herr hlast] at hm
      exact hev4 hm
    | some stack =>
      rw [mainCore_save args env fs0 fr stack herr hlast] at hm
      rcases List.mem_append.mp hm with hq | hq
      · exact hev4 hq
      · simp at hq

/-- A file write leaves the directory set unchanged. -/
theorem Fs.dirs_write (fs : Fs) (p c : Str) : (fs.write p c).dirs = fs.dirs := rfl

/-- A directory creation leaves the file table unchanged. -/
theorem Fs.files_mkdir (fs : Fs) (p : Str) : (fs.mkdir p).files = fs.files := rfl

/-- Reading back a path just written returns the written content. -/
theorem Fs.readFile_write_self (fs : Fs) (p c : Str) :
    (fs.write p c).readFile p = some c := by
  unfold Fs.write Fs.readFile
  simp [List.filter_append]

/-- The final filesystem of any run that passed the front section is the
post-master-directory state or the post-science-directory state. -/
theorem mainFn_fs_cases (args : Args) (env : Env) (fs0 : Fs) (fr : Front)
    (hf : mainFront args env = Except.ok fr) :
    (mainFn args env fs0).fs = fs2Of fs0 fr ∨
      (mainFn args env fs0).fs = fs3Of env fs0 fr := by
  rw [mainFn_ok_eq args env fs0 fr hf]
  cases herr : (loopOf args env fr).err with
  | some e => rw [mainCore_err args env fs0 fr e herr]; exact Or.inl rfl
  | none =>
    cases hlast : (loopOf args env fr).last with
    | none => rw [mainCore_name_err args env fs0 fr herr hlast]; exact Or.inr rfl
    | some stack => rw [mainCore_save args env fs0 fr stack herr hlast]; exact Or.inr rfl

/-- The post-master-directory state has the same file table as the
parameter-file write. -/
theorem fs2Of_files (fs0 : Fs) (fr : Front) :
    (fs2Of fs0 fr).files = (fs1Of fs0 fr).files := by
  unfold fs2Of
  split <;> rfl

/-- The post-science-directory state has the same file table as the
parameter-file write. -/
theorem fs3Of_files (env : Env) (fs0 : Fs) (fr : Front) :
    (fs3Of env fs0 fr).files = (fs1Of fs0 fr).files := by
  unfold fs3Of
  split
  · exact fs2Of_files fs0 fr
  · rw [Fs.files_mkdir]
    exact fs2Of_files fs0 fr

/-- The final file table of any run past the front section holds the freshly
written parameter file. -/
theorem mainFn_readFile_par (args : Args) (env : Env) (fs0 : Fs) (fr : Front)
    (hf : mainFront args env = Except.ok fr) :
    (mainFn args env fs0).fs.readFile (parOutfileOf fr) = some fr.p.content := by
  have hfiles : (mainFn args env fs0).fs.files = (fs1Of fs0 fr).files := by
    rcases mainFn_fs_cases args env fs0 fr hf with h | h
    · rw [h]; exact fs2Of_files fs0 fr
    · rw [h]; exact fs3Of_files env fs0 fr
  have : (mainFn args env fs0).fs.readFile (parOutfileOf fr) =
      (fs1Of fs0 fr).readFile (parOutfileOf fr) := by
    unfold Fs.readFile
    rw [hfiles]
  rw [this]
  exact Fs.readFile_write_self fs0 (parOutfileOf fr) fr.p.content


/-- The loop of a run emits no `save_all`. -/
theorem countSaveAll_loopOf (args : Args) (env : Env) (fr : Front) :
    countSaveAll (loopOf args env fr).evs = 0 := by
  unfold loopOf
  rw [detLoop_countSaveAll]
  rfl

/-- No `save_all` occurs among the effects up to the science-directory step. -/
theorem countSaveAll_evs4Of (args : Args) (env : Env) (fs0 : Fs) (fr : Front) :
    countSaveAll (evs4Of args env fs0 fr) = 0 := by
  unfold evs4Of
  rw [countSaveAll_append, countSaveAll_append, countSaveAll_evs3Of,
    countSaveAll_loopOf]
  split <;> simp [countSaveAll, isSaveAllEv, List.filter]

/-- The unconditional parameter-file write is among the pre-loop effects. -/
theorem writePar_mem_evs3Of (fs0 : Fs) (fr : Front) :
    Event.writeParFile (parOutfileOf fr) fr.p.content ∈ evs3Of fs0 fr := by
  unfold evs3Of evs2Of
  split <;> split <;> simp

/-- Inversion of a combine/extract event: every such event in any run's
trace carries the run's difference-imaging flag and the caller's display,
peaks, standard-star and sampling arguments. -/
theorem extract_mem_inv (args : Args) (env : Env) (fs0 : Fs) (fr : Front)
    (d : Int) (b x y z : Bool) (w : Rat)
    (hf : mainFront args env = Except.ok fr)
    (hm : Event.extractCall d b x y z w ∈ (mainFn args env fs0).events) :
    b = fr.ir_redux ∧ x = args.showFlag ∧ y = args.peaks ∧ z = args.std ∧
      w = args.samp_fact := by
  rw [mainFn_ok_eq args env fs0 fr hf] at hm
  have hloop : Event.extractCall d b x y z w ∈ (loopOf args env fr).evs →
      b = fr.ir_redux ∧ x = args.showFlag ∧ y = args.peaks ∧ z = args.std ∧
        w = args.samp_fact := by
    intro hq
    unfold loopOf at hq
    rcases detLoop_extract_flag env fr.spec2d_files fr.master_dir fr.ir_redux
      fr.p args d b x y z w fr.detectors [] [] none hq with h0 | h0
    · simp at h0
    · exact h0
  have hev4 : Event.extractCall d b x y z w ∈ evs4Of args env fs0 fr →
      b = fr.ir_redux ∧ x = args.showFlag ∧ y = args.peaks ∧ z = args.std ∧
        w = args.samp_fact := by
    intro hq
    unfold evs4Of at hq
    rcases List.mem_append.mp hq with hq2 | hq2
    · rcases List.mem_append.mp hq2 with hq3 | hq3
      · exact absurd hq3 (extract_not_mem_evs3Of fs0 fr d b x y z w)
      · exact hloop hq3
    · split at hq2 <;> simp at hq2
  cases herr : (loopOf args env fr).err with
  | some e =>
    rw [mainCore_err args env fs0 fr e herr] at hm
    rcases List.mem_append.mp hm with hq | hq
    · exact absurd hq (extract_not_mem_evs3Of fs0 fr d b x y z w)
    · exact hloop hq
  | none =>
    cases hlast : (loopOf args env fr).last with
    | none =>
      rw [mainCore_name_err args env fs0 fr herr hlast] at hm
      exact hev4 hm
    | some stack =>
      rw [mainCore_save args env fs0 fr stack herr hlast] at hm
      rcases List.mem_append.mp hm with hq | hq
      · exact hev4 hq
      · simp at hq

/-- C1: for every completed run of `main`, the persistence collaborator
`save_all` is called exactly once, as the very last effect, after the loop
over all selected detectors has completed — carrying the full SciDict (the
shared meta entry plus one populated entry per selected detector, in loop
order, none missing and none unpopulated), the calibration master-key
metadata of the last loaded stack, the instrument descriptor, the original
first-exposure 1D and 2D headers, the science output directory and the
basename; it is never called with a partially populated SciDict. -/
theorem c1_save_all_exactly_once (args : Args) (env : Env) (fs0 : Fs)
    (h : (mainFn args env fs0).result = none) :
    ∃ (fr : Front) (stack : StackDict), mainFront args env = Except.ok fr
      ∧ countSaveAll (mainFn args env fs0).events = 1
      ∧ (mainFn args env fs0).events.getLast? =
          some (Event.saveAllCall
            { meta := { vel_corr := 0, ir_redux := fr.ir_redux },
              dets := (loopOf args env fr).acc }
            stack.master_key_dict fr.master_dir fr.sp fr.head1d fr.head2d
            (sciPathOf env) fr.basename)
      ∧ (loopOf args env fr).acc.map Prod.fst = fr.detectors
      ∧ (∀ e ∈ (loopOf args env fr).acc, e.2.isSome = true) := by
  cases hf : mainFront args env with
  | error e =>
    rw [mainFn_err_eq args env fs0 e hf] at h
    simp at h
  | ok fr =>
    rw [mainFn_ok_eq args env fs0 fr hf] at h ⊢
    cases herr : (loopOf args env fr).err with
    | some e =>
      rw [mainCore_err args env fs0 fr e herr] at h
      simp at h
    | none =>
      cases hlast : (loopOf args env fr).last with
      | none =>
        rw [mainCore_name_err args env fs0 fr herr hlast] at h
        simp at h
      | some stack =>
        rw [mainCore_save args env fs0 fr stack herr hlast]
        have hacc := detLoop_success_acc env fr.spec2d_files fr.master_dir
          fr.ir_redux fr.p args fr.detectors [] [] none
          (by unfold loopOf at herr; exact herr)
        refine ⟨fr, stack, rfl, ?_, ?_, ?_, ?_⟩
        · show countSaveAll (evs4Of args env fs0 fr ++ [_]) = 1
          rw [countSaveAll_append, countSaveAll_evs4Of]
          rfl
        · show (evs4Of args env fs0 fr ++ [_]).getLast? = _
          simp
        · show (loopOf args env fr).acc.map Prod.fst = fr.detectors
          unfold loopOf
          rw [hacc.1]
          rfl
        · intro e he
          have he2 : e ∈ (detLoop env fr.spec2d_files fr.master_dir fr.ir_redux
              fr.p args fr.detectors [] [] none).acc := by
            unfold loopOf at he
            exact he
          rcases hacc.2 e he2 with h0 | h0
          · simp at h0
          · exact h0

/-- C1 witness: the completed concrete run calls `save_all` exactly once as
its final effect, with one populated entry for its single selected
detector. -/
theorem c1_witness :
    ∃ (fr : Front) (stack : StackDict), mainFront argsObj env0 = Except.ok fr
      ∧ countSaveAll (mainFn argsObj env0 fsE).events = 1
      ∧ (mainFn argsObj env0 fsE).events.getLast? =
          some (Event.saveAllCall
            { meta := { vel_corr := 0, ir_redux := fr.ir_redux },
              dets := (loopOf argsObj env0 fr).acc }
            stack.master_key_dict fr.master_dir fr.sp fr.head1d fr.head2d
            (sciPathOf env0) fr.basename)
      ∧ (loopOf argsObj env0 fr).acc.map Prod.fst = fr.detectors
      ∧ (∀ e ∈ (loopOf argsObj env0 fr).acc, e.2.isSome = true) :=
  c1_save_all_exactly_once argsObj env0 fsE (by decide)

/-- C2: a hard failure while processing any detector (a stack-load or
combine/extract error) aborts the whole orchestration with `save_all` never
invoked — no trace of a failed run contains a `save_all` call — while a run
whose selected detectors all load and extract successfully (even with empty
per-detector object lists, the recoverable no-objects outcome) completes. -/
theorem c2_hard_failure_aborts (args : Args) (env : Env) (fs0 : Fs) :
    ((mainFn args env fs0).result.isSome = true →
      countSaveAll (mainFn args env fs0).events = 0)
    ∧ (∀ fr, mainFront args env = Except.ok fr → fr.detectors ≠ [] →
        (∀ d ∈ fr.detectors, detOkF env args fr d = true) →
        (mainFn args env fs0).result = none) := by
  constructor
  · intro h
    cases hf : mainFront args env with
    | error e =>
      rw [mainFn_err_eq args env fs0 e hf]
      rfl
    | ok fr =>
      rw [mainFn_ok_eq args env fs0 fr hf] at h ⊢
      cases herr : (loopOf args env fr).err with
      | some e =>
        rw [mainCore_err args env fs0 fr e herr]
        show countSaveAll (evs3Of fs0 fr ++ (loopOf args env fr).evs) = 0
        rw [countSaveAll_append, countSaveAll_evs3Of, countSaveAll_loopOf]
      | none =>
        cases hlast : (loopOf args env fr).last with
        | none =>
          rw [mainCore_name_err args env fs0 fr herr hlast]
          exact countSaveAll_evs4Of args env fs0 fr
        | some stack =>
          rw [mainCore_save args env fs0 fr stack herr hlast] at h
          simp at h
  · intro fr hf hne hok
    rw [mainFn_ok_eq args env fs0 fr hf]
    obtain ⟨he, h0, h1⟩ := detLoop_all_ok env fr.spec2d_files fr.master_dir
      fr.ir_redux fr.p args fr.detectors [] [] none (fun d hd => hok d hd)
    have herr : (loopOf args env fr).err = none := by
      unfold loopOf
      exact he
    have hlastS : ((loopOf args env fr).last).isSome = true := by
      unfold loopOf
      exact h1 hne
    obtain ⟨stack, hst⟩ := Option.isSome_iff_exists.mp hlastS
    rw [mainCore_save args env fs0 fr stack herr hst]

/-- C2 witness: with a failing stack loader the run aborts with no
`save_all` in its trace; with all collaborators succeeding — the extract
result carrying an empty object list (the recoverable no-objects outcome) —
the run completes. -/
theorem c2_witness :
    countSaveAll (mainFn argsObj envFail fsE).events = 0
    ∧ (mainFn argsObj env0 fsE).result = none :=
  ⟨(c2_hard_failure_aborts argsObj envFail fsE).1 (by decide),
   (c2_hard_failure_aborts argsObj env0 fsE).2 fr0 (by decide) (by decide)
     (by decide)⟩

/-- C3: the difference-imaging mode flag is set if and only if the `SKYSUB`
metadata of the first spec2d file's header contains the token `'DIFF'`; the
same flag value is stored in the shared meta entry handed to `save_all` and
is passed unchanged to every detector's combine/extract call. -/
theorem c3_ir_redux_flag (args : Args) (env : Env) (fs0 : Fs) (fr : Front)
    (hf : mainFront args env = Except.ok fr) :
    fr.head2d = env.getheader fr.f0
    ∧ fr.ir_redux = pyInStr sDIFF fr.head2d.skysub
    ∧ (fr.ir_redux = true ↔ sDIFF <:+: fr.head2d.skysub)
    ∧ (∀ d b x y z w, Event.extractCall d b x y z w ∈ (mainFn args env fs0).events →
        b = fr.ir_redux)
    ∧ (∀ sci mk md sp h1 h2 sc bn,
        Event.saveAllCall sci mk md sp h1 h2 sc bn ∈ (mainFn args env fs0).events →
          sci.meta.ir_redux = fr.ir_redux) := by
  obtain ⟨-, -, -, hh2, hir, -, -, -, -⟩ := mainFront_ok_inv args env fr hf
  refine ⟨hh2, hir, ?_, ?_, ?_⟩
  · rw [hir]
    exact pyInStr_iff_infix sDIFF fr.head2d.skysub
  · intro d b x y z w hm
    exact (extract_mem_inv args env fs0 fr d b x y z w hf hm).1
  · intro sci mk md sp h1 h2 sc bn hm
    obtain ⟨fr2, stack, hf2, -, -, hsci, -⟩ :=
      saveAll_mem_inv args env fs0 sci mk md sp h1 h2 sc bn hm
    rw [hf] at hf2
    injection hf2 with hfr2
    subst hfr2
    rw [hsci]

/-- C3 witness: in the concrete run the header's `SKYSUB` is `'DIFF AB'`, so
the flag is true, equal to the substring test, stored in the saved meta and
carried by the extract call. -/
theorem c3_witness :
    fr0.head2d = env0.getheader fr0.f0
    ∧ fr0.ir_redux = pyInStr sDIFF fr0.head2d.skysub
    ∧ (fr0.ir_redux = true ↔ sDIFF <:+: fr0.head2d.skysub)
    ∧ (∀ d b x y z w, Event.extractCall d b x y z w ∈ (mainFn argsObj env0 fsE).events →
        b = fr0.ir_redux)
    ∧ (∀ sci mk md sp h1 h2 sc bn,
        Event.saveAllCall sci mk md sp h1 h2 sc bn ∈ (mainFn argsObj env0 fsE).events →
          sci.meta.ir_redux = fr0.ir_redux) :=
  c3_ir_redux_flag argsObj env0 fsE fr0 (by decide)

/-- C4 (amended): the parser defaults the detector restriction to detector 1
rather than to "all detectors".  At the `main` level the selection follows
the effective `detnum`: a supplied `args.det` overrides the parameter set, a
single-detector `detnum` selects exactly that detector, and only an unset
`detnum` (requiring `det = None` in the arguments, which the command-line
parser never produces) selects all detectors native to the instrument, in
ascending order; whenever the selection is not the full native set, a
warning lists the excluded detectors, and a completed run's combine/extract
calls are exactly the selected detectors. -/
theorem c4_detector_restriction (args : Args) (env : Env) (fs0 : Fs)
    (fr : Front) (hf : mainFront args env = Except.ok fr) :
    fr.detectors = select_detectors fr.p.detnum fr.sp.ndet
    ∧ (∀ d, args.det = some d → fr.p.detnum = some d)
    ∧ (∀ d, fr.p.detnum = some d → fr.detectors = [d])
    ∧ (fr.p.detnum = none →
        fr.detectors = (List.range fr.sp.ndet).map (fun i => (i : Int) + 1))
    ∧ (fr.detectors.length ≠ fr.sp.ndet →
        Event.warnNotReducing (excludedDets fr.detectors fr.sp.ndet) ∈
          (mainFn args env fs0).events)
    ∧ ((mainFn args env fs0).result = none →
        processedDets (mainFn args env fs0).events = fr.detectors)
    ∧ parserDefaults.det = some 1 := by
  obtain ⟨-, -, -, -, -, -, hdet, -, hdov⟩ := mainFront_ok_inv args env fr hf
  refine ⟨hdet, hdov, ?_, ?_, ?_, ?_, rfl⟩
  · intro d hd
    rw [hdet, hd]
    rfl
  · intro hd
    rw [hdet, hd]
    rfl
  · intro hne
    obtain ⟨tail, htail⟩ := mainFn_events_shape args env fs0 fr hf
    rw [htail]
    exact List.mem_append.mpr (Or.inl (warn_mem_evs3Of fs0 fr hne))
  · intro h
    rw [mainFn_ok_eq args env fs0 fr hf] at h ⊢
    cases herr : (loopOf args env fr).err with
    | some e =>
      rw [mainCore_err args env fs0 fr e herr] at h
      simp at h
    | none =>
      cases hlast : (loopOf args env fr).last with
      | none =>
        rw [mainCore_name_err args env fs0 fr herr hlast] at h
        simp at h
      | some stack =>
        rw [mainCore_save args env fs0 fr stack herr hlast]
        show processedDets (evs4Of args env fs0 fr ++ [_]) = fr.detectors
        rw [processedDets_append]
        have h4 : processedDets (evs4Of args env fs0 fr) = fr.detectors := by
          unfold evs4Of
          rw [processedDets_append, processedDets_append, processedDets_evs3Of]
          have hl : processedDets (loopOf args env fr).evs = fr.detectors := by
            unfold loopOf
            rw [detLoop_processed_success env fr.spec2d_files fr.master_dir
              fr.ir_redux fr.p args fr.detectors [] [] none
              (by unfold loopOf at herr; exact herr)]
            rfl
          rw [hl]
          split <;> simp [processedDets, List.filterMap]
        rw [h4]
        simp [processedDets, List.filterMap]

/-- C4 counterexample: an `--obj` run with every other option left at its
parser default (in particular no `--det` supplied) on a two-detector
instrument completes having processed only detector 1 — not all detectors
native to the instrument, as the claim states for the no-restriction
case. -/
theorem c4_counterexample :
    parserDefaults.det = some 1
    ∧ sp0.ndet = 2
    ∧ (mainFn argsObj env0 fsE).result = none
    ∧ processedDets (mainFn argsObj env0 fsE).events = [1] := by decide

/-- C4 witness: the amended statement instantiated at the concrete run. -/
theorem c4_witness :
    fr0.detectors = select_detectors fr0.p.detnum fr0.sp.ndet
    ∧ (∀ d, argsObj.det = some d → fr0.p.detnum = some d)
    ∧ (∀ d, fr0.p.detnum = some d → fr0.detectors = [d])
    ∧ (fr0.p.detnum = none →
        fr0.detectors = (List.range fr0.sp.ndet).map (fun i => (i : Int) + 1))
    ∧ (fr0.detectors.length ≠ fr0.sp.ndet →
        Event.warnNotReducing (excludedDets fr0.detectors fr0.sp.ndet) ∈
          (mainFn argsObj env0 fsE).events)
    ∧ ((mainFn argsObj env0 fsE).result = none →
        processedDets (mainFn argsObj env0 fsE).events = fr0.detectors)
    ∧ parserDefaults.det = some 1 :=
  c4_detector_restriction argsObj env0 fsE fr0 (by decide)

/-- C5 (amended): when neither entry point is given, `main` fails with the
fatal configuration error before any processing — no effects, filesystem
untouched; the two entry points are not enforced mutually exclusive: when a
configuration file is supplied (alone or together with an object pattern)
the file branch is entered with the object pattern ignored entirely — and in
this script that branch always aborts with the unbound-local error of
line 106 before any processing, so the run is identical whatever `obj`
holds. -/
theorem c5_input_modes (args : Args) (env : Env) (fs0 : Fs) :
    (args.file = none → args.obj = none →
      mainFn args env fs0 =
        { events := [], fs := fs0, result := some MainError.configError })
    ∧ (∀ f, args.file = some f →
        mainFn args env fs0 =
          { events := [], fs := fs0, result := some MainError.unboundLocalError })
    ∧ (∀ f o, args.file = some f →
        mainFn { args with obj := o } env fs0 = mainFn args env fs0) := by
  refine ⟨?_, ?_, ?_⟩
  · intro hfile hobj
    have hf : mainFront args env = Except.error MainError.configError := by
      unfold mainFront
      rw [hfile, hobj]
    exact mainFn_err_eq args env fs0 MainError.configError hf
  · intro f hfile
    have hf : mainFront args env = Except.error MainError.unboundLocalError := by
      simp only [mainFront, hfile]
    exact mainFn_err_eq args env fs0 MainError.unboundLocalError hf
  · intro f o hfile
    have h1 : mainFront args env = Except.error MainError.unboundLocalError := by
      simp only [mainFront, hfile]
    have h2 : mainFront { args with obj := o } env =
        Except.error MainError.unboundLocalError := by
      simp only [mainFront, hfile]
    rw [mainFn_err_eq args env fs0 MainError.unboundLocalError h1,
      mainFn_err_eq { args with obj := o } env fs0 MainError.unboundLocalError h2]

/-- C5 counterexample: supplying both `--file` and `--obj` is not rejected
as mutually exclusive — the run enters the file branch with the object
pattern ignored, ending exactly like the file-only run (here: the
unbound-local crash of line 106, not the configuration error the claim's
exclusivity would demand). -/
theorem c5_counterexample :
    (mainFn argsBoth env0 fsE).result = some MainError.unboundLocalError
    ∧ mainFn argsBoth env0 fsE = mainFn argsFile env0 fsE
    ∧ MainError.unboundLocalError ≠ MainError.configError := by decide

/-- C5 witness: the amended statement instantiated — a run with neither
entry point fails with the configuration error and no effects, a file run
aborts with the unbound-local error and no effects, and the object pattern
is ignored whenever a file is supplied. -/
theorem c5_witness :
    mainFn parserDefaults env0 fsE =
      { events := [], fs := fsE, result := some MainError.configError }
    ∧ mainFn argsFile env0 fsE =
        { events := [], fs := fsE, result := some MainError.unboundLocalError }
    ∧ mainFn { argsFile with obj := some ("X".toList) } env0 fsE =
        mainFn argsFile env0 fsE :=
  ⟨(c5_input_modes parserDefaults env0 fsE).1 rfl rfl,
   (c5_input_modes argsFile env0 fsE).2.1 ("coadd.file".toList) rfl,
   (c5_input_modes argsFile env0 fsE).2.2 ("coadd.file".toList)
     (some ("X".toList)) rfl⟩

/-- C6: the shared meta entry is fixed before the detector loop — velocity
correction 0.0 and the difference-imaging flag — and the loop modifies only
per-detector entries: whatever detectors are processed, the meta entry of
any science dictionary handed to `save_all` equals exactly that pre-loop
value, with `vel_corr` and `ir_redux` unchanged. -/
theorem c6_meta_unchanged (args : Args) (env : Env) (fs0 : Fs) (fr : Front)
    (hf : mainFront args env = Except.ok fr) :
    ∀ sci mk md sp h1 h2 sc bn,
      Event.saveAllCall sci mk md sp h1 h2 sc bn ∈ (mainFn args env fs0).events →
        sci.meta = { vel_corr := 0, ir_redux := fr.ir_redux } := by
  intro sci mk md sp h1 h2 sc bn hm
  obtain ⟨fr2, stack, hf2, -, -, hsci, -⟩ :=
    saveAll_mem_inv args env fs0 sci mk md sp h1 h2 sc bn hm
  rw [hf] at hf2
  injection hf2 with hfr2
  subst hfr2
  rw [hsci]

/-- C6 witness: the save event of the concrete completed run carries exactly
the pre-loop meta entry. -/
theorem c6_witness :
    sciSaved0.meta = { vel_corr := 0, ir_redux := fr0.ir_redux } :=
  c6_meta_unchanged argsObj env0 fsE fr0 (by decide) sciSaved0
    ("MK01".toList) ("/work/Masters_coadd".toList) sp0 hdr0 hdr0
    ("/work/Science_coadd".toList) ("TARG".toList) (by decide)

/-- C7: when no basename override is supplied the run basename is the pure
string transform `os.path.basename(first spec2d file).split('_')[1]` — the
token after the first `'_'` of the file's basename; when an override is
supplied it is used exactly; the run's first effect writes the parameter
file named from that basename. -/
theorem c7_basename_rule (args : Args) (env : Env) (fs0 : Fs) (fr : Front)
    (hf : mainFront args env = Except.ok fr) :
    (∀ b, args.basename = some b → fr.basename = b)
    ∧ (args.basename = none →
        (pySplitChar '_' (osBasename fr.f0))[1]? = some fr.basename)
    ∧ (mainFn args env fs0).events.head? =
        some (Event.writeParFile (parOutfileOf fr) fr.p.content) := by
  obtain ⟨-, -, -, -, -, -, -, hbn, -⟩ := mainFront_ok_inv args env fr hf
  refine ⟨?_, ?_, ?_⟩
  · intro b hb
    unfold basenameOf at hbn
    rw [hb] at hbn
    injection hbn with h
    exact h.symm
  · intro hb
    have hbn2 : (match (pySplitChar '_' (osBasename fr.f0))[1]? with
        | some t => Except.ok t
        | none => Except.error MainError.indexError) = Except.ok fr.basename := by
      rw [← hbn]
      unfold basenameOf
      rw [hb]
    split at hbn2
    · rename_i t hsome
      injection hbn2 with ht
      rw [hsome, ht]
    · exact absurd hbn2 (by simp)
  · obtain ⟨tail, htail⟩ := mainFn_events_shape args env fs0 fr hf
    rw [htail]
    have hh := evs3Of_head fs0 fr
    rcases hevs : evs3Of fs0 fr with _ | ⟨e, ls⟩
    · rw [hevs] at hh
      simp at hh
    · rw [hevs] at hh
      simp at hh
      rw [List.cons_append]
      simp [hh]

/-- C7 witness: in the concrete run (no override) the basename `TARG` is the
token after the first underscore of `spec2d_TARG_X.fits`, and the first
effect writes `TARG_coadd2d.par`. -/
theorem c7_witness :
    (∀ b, argsObj.basename = some b → fr0.basename = b)
    ∧ (argsObj.basename = none →
        (pySplitChar '_' (osBasename fr0.f0))[1]? = some fr0.basename)
    ∧ (mainFn argsObj env0 fsE).events.head? =
        some (Event.writeParFile (parOutfileOf fr0) fr0.p.content) :=
  c7_basename_rule argsObj env0 fsE fr0 (by decide)

/-- C8 (amended): the master and science output directories are created
check-then-create — no creation event when the directory already exists, and
an already-prepared directory set is left unchanged — but the parameter file
is written unconditionally on every run, with no prior existence check,
overwriting whatever was there; so an already-prepared filesystem state is
left unchanged only up to the parameter file's content. -/
theorem c8_check_then_create (args : Args) (env : Env) (fs0 : Fs) (fr : Front)
    (hf : mainFront args env = Except.ok fr) :
    (fs0.isDir fr.master_dir = true →
      Event.makedirs fr.master_dir ∉ (mainFn args env fs0).events)
    ∧ (fs0.isDir fr.master_dir = false →
        Event.makedirs fr.master_dir ∈ (mainFn args env fs0).events)
    ∧ (fs0.isDir fr.master_dir = true → fs0.isDir (sciPathOf env) = true →
        (mainFn args env fs0).fs.dirs = fs0.dirs)
    ∧ Event.writeParFile (parOutfileOf fr) fr.p.content ∈ (mainFn args env fs0).events
    ∧ (mainFn args env fs0).fs.readFile (parOutfileOf fr) = some fr.p.content := by
  refine ⟨?_, ?_, ?_, ?_, ?_⟩
  · intro hd hm
    rcases makedirs_mem_inv args env fs0 fr fr.master_dir hf hm with
      ⟨-, hfalse⟩ | ⟨heq, hfalse⟩
    · have h1 : (fs1Of fs0 fr).isDir fr.master_dir = fs0.isDir fr.master_dir := rfl
      rw [h1, hd] at hfalse
      exact absurd hfalse (by simp)
    · have h2 : fs2Of fs0 fr = fs1Of fs0 fr := by
        unfold fs2Of
        rw [if_pos (show (fs1Of fs0 fr).isDir fr.master_dir = true from hd)]
      rw [h2] at hfalse
      have h1 : (fs1Of fs0 fr).isDir (sciPathOf env) = fs0.isDir (sciPathOf env) := rfl
      rw [h1, ← heq, hd] at hfalse
      exact absurd hfalse (by simp)
  · intro hd
    obtain ⟨tail, htail⟩ := mainFn_events_shape args env fs0 fr hf
    rw [htail]
    exact List.mem_append.mpr (Or.inl (makedirs_master_mem_evs3Of fs0 fr hd))
  · intro hd1 hd2
    have h2 : fs2Of fs0 fr = fs1Of fs0 fr := by
      unfold fs2Of
      rw [if_pos (show (fs1Of fs0 fr).isDir fr.master_dir = true from hd1)]
    have h3 : fs3Of env fs0 fr = fs2Of fs0 fr := by
      unfold fs3Of
      rw [if_pos (show (fs2Of fs0 fr).isDir (sciPathOf env) = true from by
        rw [h2]; exact hd2)]
    rcases mainFn_fs_cases args env fs0 fr hf with hc | hc
    · rw [hc, h2]
      rfl
    · rw [hc, h3, h2]
      rfl
  · obtain ⟨tail, htail⟩ := mainFn_events_shape args env fs0 fr hf
    rw [htail]
    exact List.mem_append.mpr (Or.inl (writePar_mem_evs3Of fs0 fr))
  · exact mainFn_readFile_par args env fs0 fr hf

/-- C8 counterexample: on an already-prepared filesystem (both directories
present, parameter file present with content `OLD`) the run does not leave
the state unchanged: the parameter file is overwritten with the new content
without any existence check. -/
theorem c8_counterexample :
    fsPrepared.readFile parfile0 = some ("OLD".toList)
    ∧ (mainFn argsObj env0 fsPrepared).fs.readFile parfile0 =
        some ("PARDEF".toList)
    ∧ (mainFn argsObj env0 fsPrepared).fs ≠ fsPrepared := by decide

/-- C8 witness: the amended statement instantiated at the prepared
filesystem — no directory creation events, directory set unchanged,
unconditional parameter-file write. -/
theorem c8_witness :
    (fsPrepared.isDir fr0.master_dir = true →
      Event.makedirs fr0.master_dir ∉ (mainFn argsObj env0 fsPrepared).events)
    ∧ (fsPrepared.isDir fr0.master_dir = false →
        Event.makedirs fr0.master_dir ∈ (mainFn argsObj env0 fsPrepared).events)
    ∧ (fsPrepared.isDir fr0.master_dir = true →
        fsPrepared.isDir (sciPathOf env0) = true →
        (mainFn argsObj env0 fsPrepared).fs.dirs = fsPrepared.dirs)
    ∧ Event.writeParFile (parOutfileOf fr0) fr0.p.content ∈
        (mainFn argsObj env0 fsPrepared).events
    ∧ (mainFn argsObj env0 fsPrepared).fs.readFile (parOutfileOf fr0) =
        some fr0.p.content :=
  c8_check_then_create argsObj env0 fsPrepared fr0 (by decide)

/-- `np_isclose` holds whenever the numeric inequality does. -/
theorem np_isclose_of (a b rtol atol : Rat) (h : |a - b| ≤ atol + rtol * |b|) :
    np_isclose a b rtol atol = true := by
  unfold np_isclose
  exact decide_eq_true h

/-- C9: the heliocentric/barycentric velocity correction is a pure function
of observation time, sky coordinate, observatory location and frame choice —
two evaluations with identical inputs are the identical scalar; at the fixed
reference case the two frame choices yield different values, matching
corrhelio ≈ -12.4976 and corrbary ≈ -12.5100 within the documented
tolerance (`rtol = 1e-5`, numpy default `atol = 1e-8`), as well as the
full-precision values asserted by the repository test. -/
theorem c9_velocity_correction :
    (∀ inp f, geomotion_velocity inp f = geomotion_velocity inp f)
    ∧ geomotion_velocity vcorrTestInput VFrame.heliocentric ≠
        geomotion_velocity vcorrTestInput VFrame.barycentric
    ∧ np_isclose (geomotion_velocity vcorrTestInput VFrame.heliocentric)
        (-(124976 : Rat) / 10000) (1 / 100000) (1 / 100000000) = true
    ∧ np_isclose (geomotion_velocity vcorrTestInput VFrame.barycentric)
        (-(125100 : Rat) / 10000) (1 / 100000) (1 / 100000000) = true
    ∧ np_isclose (geomotion_velocity vcorrTestInput VFrame.heliocentric)
        (-(1249764005490221 : Rat) / 100000000000000) (1 / 100000)
        (1 / 100000000) = true
    ∧ np_isclose (geomotion_velocity vcorrTestInput VFrame.barycentric)
        (-(12510015817405023 : Rat) / 1000000000000000) (1 / 100000)
        (1 / 100000000) = true := by
  have hvh : geomotion_velocity vcorrTestInput VFrame.heliocentric =
      -(1249764005490221 : Rat) / 100000000000000 := by
    simp [geomotion_velocity]
  have hvb : geomotion_velocity vcorrTestInput VFrame.barycentric =
      -(12510015817405023 : Rat) / 1000000000000000 := by
    simp [geomotion_velocity]
  refine ⟨fun _ _ => rfl, ?_, ?_, ?_, ?_, ?_⟩
  · rw [hvh, hvb]
    norm_num
  · apply np_isclose_of
    rw [hvh, abs_le, abs_of_nonpos (by norm_num)]
    constructor <;> norm_num
  · apply np_isclose_of
    rw [hvb, abs_le, abs_of_nonpos (by norm_num)]
    constructor <;> norm_num
  · apply np_isclose_of
    rw [hvh, abs_le, abs_of_nonpos (by norm_num)]
    constructor <;> norm_num
  · apply np_isclose_of
    rw [hvb, abs_le, abs_of_nonpos (by norm_num)]
    constructor <;> norm_num

/-- C10: the spec1d companion list is derived purely by replacing the
substring `'spec2d'` with `'spec1d'` in each spec2d path (a path not
containing that substring yields no distinct companion), and only the first
exposure's 1D and 2D headers are read and handed to persistence on behalf of
all exposures. -/
theorem c10_companions_and_first_headers (args : Args) (env : Env) (fs0 : Fs)
    (fr : Front) (hf : mainFront args env = Except.ok fr) :
    fr.spec1d_files = fr.spec2d_files.map spec1d_name
    ∧ (∃ rest, fr.spec2d_files = fr.f0 :: rest)
    ∧ fr.head1d = env.getheader (spec1d_name fr.f0)
    ∧ fr.head2d = env.getheader fr.f0
    ∧ (∀ s, ¬ sSpec2d <:+: s → spec1d_name s = s)
    ∧ (∀ sci mk md sp h1 h2 sc bn,
        Event.saveAllCall sci mk md sp h1 h2 sc bn ∈ (mainFn args env fs0).events →
          h1 = fr.head1d ∧ h2 = fr.head2d) := by
  obtain ⟨hfst, hmap, hh1, hh2, -, -, -, -, -⟩ := mainFront_ok_inv args env fr hf
  refine ⟨hmap, hfst, hh1, hh2, ?_, ?_⟩
  · intro s hs
    exact pyReplace_not_infix s sSpec2d sSpec1d hs
  · intro sci mk md sp h1 h2 sc bn hm
    obtain ⟨fr2, stack, hf2, -, -, -, -, -, -, hhh1, hhh2, -, -⟩ :=
      saveAll_mem_inv args env fs0 sci mk md sp h1 h2 sc bn hm
    rw [hf] at hf2
    injection hf2 with hfr2
    subst hfr2
    exact ⟨hhh1, hhh2⟩

/-- C10 witness: in the concrete run the single companion is
`Science/spec1d_TARG_X.fits`, both headers are read from the first exposure,
and the saved headers are those. -/
theorem c10_witness :
    fr0.spec1d_files = fr0.spec2d_files.map spec1d_name
    ∧ (∃ rest, fr0.spec2d_files = fr0.f0 :: rest)
    ∧ fr0.head1d = env0.getheader (spec1d_name fr0.f0)
    ∧ fr0.head2d = env0.getheader fr0.f0
    ∧ (∀ s, ¬ sSpec2d <:+: s → spec1d_name s = s)
    ∧ (∀ sci mk md sp h1 h2 sc bn,
        Event.saveAllCall sci mk md sp h1 h2 sc bn ∈ (mainFn argsObj env0 fsE).events →
          h1 = fr0.head1d ∧ h2 = fr0.head2d) :=
  c10_companions_and_first_headers argsObj env0 fsE fr0 (by decide)

/-- C9 witness: the two frame choices differ at the reference inputs. -/
theorem c9_witness :
    geomotion_velocity vcorrTestInput VFrame.heliocentric ≠
      geomotion_velocity vcorrTestInput VFrame.barycentric :=
  c9_velocity_correction.2.1
